import Mathlib

/-!
Verification development for the `ultcyber/nba_predictions` repository.

The file shallowly embeds the parts of the code that the checked
properties speak about:

* `nba-predictions-api/src/config/prediction.ts` (the two-tier variant,
  the one whose cited line numbers carry `classifyGame` at lines 21-23):
  threshold parsing, validation and game classification;
* the step-based pipeline plan's executable snippets
  (`main` argument validation, `NBAScheduler.run_pipeline`,
  `NBAScheduler._save_step_output`) and its checkpoint JSON schemas;
* `nba-predictions-api/src/services/gameService.ts` (`mapRowToGame`) and
  the concrete prediction rows shipped in `initDatabase.ts` and the test
  fixtures;
* components whose Python sources are not part of the repository snapshot
  (event collector, rivalry score, competitive duration, storage adapter):
  these are modelled from the specification, and each such definition says
  so in its doc comment.

JavaScript/Python floating point numbers are modelled as rationals `ℚ`,
machine integers as `Int`/`Nat`; absent/`NaN` values are modelled with
`Option`.
-/

namespace NBA

/-! ## `config/prediction.ts` (two-tier variant, `src/unnamed/part_007`)

```ts
const validateThreshold = (threshold: number): number => {
  if (isNaN(threshold) || threshold < 0 || threshold > 100) {
    console.warn(`...`);
    return 60;
  }
  return threshold;
};

export const predictionConfig: PredictionConfig = {
  goodGameThreshold: validateThreshold(parseInt(process.env.GOOD_GAME_THRESHOLD || '60', 10))
};

export const classifyGame = (rating: number): 'good' | 'bad' => {
  return rating >= predictionConfig.goodGameThreshold ? 'good' : 'bad';
};
```
-/

/-- Digits of the longest decimal-digit prefix, as a number; `none` when the
prefix is empty (JavaScript `NaN`). -/
def parseDigits (cs : List Char) : Option Nat :=
  let ds := cs.takeWhile Char.isDigit
  if ds.isEmpty then none
  else some (ds.foldl (fun a c => 10 * a + (c.toNat - 48)) 0)

/-- JavaScript `parseInt(s, 10)`: skip leading whitespace, optional sign,
longest decimal-digit prefix; `none` models `NaN`. -/
def parseIntDec (s : String) : Option Int :=
  let cs := s.toList.dropWhile (fun c => c = ' ' ∨ c = '\t' ∨ c = '\n' ∨ c = '\r')
  match cs with
  | '-' :: rest => (parseDigits rest).map (fun n => -(n : Int))
  | '+' :: rest => (parseDigits rest).map (fun n => (n : Int))
  | rest => (parseDigits rest).map (fun n => (n : Int))

/-- JavaScript `process.env.GOOD_GAME_THRESHOLD || '60'`: an unset variable
(`none`) and the empty string are falsy and give the literal `'60'`. -/
def envOrSixty (env : Option String) : String :=
  match env with
  | none => "60"
  | some s => if s = "" then "60" else s

/-- `validateThreshold` from `config/prediction.ts` (two-tier variant):
`NaN` (modelled `none`) and out-of-range values are replaced by 60. -/
def validateThreshold (threshold : Option ℚ) : ℚ :=
  match threshold with
  | none => 60
  | some t => if t < 0 ∨ 100 < t then 60 else t

structure PredictionConfig where
  goodGameThreshold : ℚ
  deriving Repr, DecidableEq

/-- `predictionConfig` from `config/prediction.ts`, as a function of the
`GOOD_GAME_THRESHOLD` environment variable. -/
def predictionConfig (env : Option String) : PredictionConfig :=
  { goodGameThreshold :=
      validateThreshold ((parseIntDec (envOrSixty env)).map (fun n => (n : ℚ))) }

/-- `classifyGame` from `config/prediction.ts` (two-tier variant):
`rating >= goodGameThreshold ? 'good' : 'bad'`. -/
def classifyGame (cfg : PredictionConfig) (rating : ℚ) : String :=
  if cfg.goodGameThreshold ≤ rating then "good" else "bad"

example : classifyGame ⟨60⟩ (131 / 2) = "good" := by
  norm_num [classifyGame]

example : (predictionConfig none).goodGameThreshold = 60 := by
  have h : parseIntDec (envOrSixty none) = some 60 := by decide
  norm_num [predictionConfig, h, validateThreshold]

example : (predictionConfig (some "85")).goodGameThreshold = 85 := by
  have h : parseIntDec (envOrSixty (some "85")) = some 85 := by decide
  norm_num [predictionConfig, h, validateThreshold]

example : (predictionConfig (some "abc")).goodGameThreshold = 60 := by
  have h : parseIntDec (envOrSixty (some "abc")) = none := by decide
  norm_num [predictionConfig, h, validateThreshold]

example : (predictionConfig (some "-5")).goodGameThreshold = 60 := by
  have h : parseIntDec (envOrSixty (some "-5")) = some (-5) := by decide
  norm_num [predictionConfig, h, validateThreshold]

example : (predictionConfig (some "101")).goodGameThreshold = 60 := by
  have h : parseIntDec (envOrSixty (some "101")) = some 101 := by decide
  norm_num [predictionConfig, h, validateThreshold]

/-! ## `NBAScheduler.run_pipeline` (step-based plan, `src/unnamed/part_003`)

```python
steps = ['collection', 'features', 'prediction', 'storage']
start_idx = steps.index(start_step)
end_idx = steps.index(end_step)
if start_idx > end_idx:
    raise ValueError(f"Invalid step sequence: {start_step} -> {end_step}")
data = input_data
for i in range(start_idx, end_idx + 1):
    step = steps[i]
    data = self._execute_step(step, data, target_date)
    ...
```

The embedding records which steps get executed; the error branch returns
before the loop, so it executes no step (and hence performs no step I/O).
-/

/-- The strictly ordered step sequence of `run_pipeline`. -/
def steps : List String := ["collection", "features", "prediction", "storage"]

/-- `NBAScheduler.run_pipeline`, restricted to its step sequencing: on a
valid order it returns the list of executed steps
`steps[start_idx..end_idx]`; on an inverted order it raises (returns
`Except.error`) before executing anything. -/
def run_pipeline (start_step end_step : String) : Except String (List String) :=
  let start_idx := steps.indexOf start_step
  let end_idx := steps.indexOf end_step
  if end_idx < start_idx then
    Except.error ("Invalid step sequence: " ++ start_step ++ " -> " ++ end_step)
  else
    Except.ok ((steps.drop start_idx).take (end_idx + 1 - start_idx))

example : run_pipeline "prediction" "collection" =
    Except.error "Invalid step sequence: prediction -> collection" := rfl
example : run_pipeline "collection" "storage" =
    Except.ok ["collection", "features", "prediction", "storage"] := rfl
example : run_pipeline "features" "prediction" =
    Except.ok ["features", "prediction"] := rfl
example : run_pipeline "storage" "storage" = Except.ok ["storage"] := rfl

/-! ## `main` argument validation (step-based plan, `src/unnamed/part_003`)

```python
args = parser.parse_args()
if args.from_step and not args.input:
    parser.error("--input is required when using --from-step")
if args.until_step and not args.output:
    parser.error("--output is required when using --until-step")
if args.from_step:
    start_step = args.from_step
    input_data = load_json(args.input)
else:
    start_step = 'collection'
    input_data = None
if args.until_step:
    end_step = args.until_step
else:
    end_step = 'storage'
```

`parser.error` prints a usage message and exits with a non-zero code; it
happens before `load_json` (the first I/O) and before `run_pipeline`.
-/

/-- Parsed CLI arguments; `none` models an absent optional flag. -/
structure Args where
  from_step : Option String
  until_step : Option String
  input : Option String
  output : Option String
  deriving Repr, DecidableEq

/-- Python truthiness of an optional string: `None` and `''` are falsy. -/
def pyTruthy : Option String → Bool
  | none => false
  | some s => s ≠ ""

/-- The two `parser.error` checks of `main`, in source order; `some msg`
models `parser.error(msg)` (usage error, non-zero exit). -/
def validate_args (a : Args) : Option String :=
  if pyTruthy a.from_step ∧ ¬ pyTruthy a.input then
    some "--input is required when using --from-step"
  else if pyTruthy a.until_step ∧ ¬ pyTruthy a.output then
    some "--output is required when using --until-step"
  else
    none

/-- Outcome of `main` up to the `run_pipeline` call: either a usage error
(non-zero exit before any pipeline work, I/O included) or the pipeline
invocation that would follow, with the start/end step defaulting. -/
inductive MainResult
  | usage_error (msg : String)
  | run (start_step end_step : String) (loads_input : Bool)
  deriving Repr, DecidableEq

/-- `main` from the step-based plan, up to the `run_pipeline` call. -/
def main_dispatch (a : Args) : MainResult :=
  match validate_args a with
  | some msg => MainResult.usage_error msg
  | none =>
      MainResult.run (a.from_step.getD "collection") (a.until_step.getD "storage")
        a.from_step.isSome

example : main_dispatch ⟨some "features", none, none, none⟩ =
    MainResult.usage_error "--input is required when using --from-step" := by decide
example : main_dispatch ⟨none, some "collection", none, none⟩ =
    MainResult.usage_error "--output is required when using --until-step" := by decide
example : main_dispatch ⟨some "features", none, some "in.json", none⟩ =
    MainResult.run "features" "storage" true := by decide
example : main_dispatch ⟨none, some "collection", none, some "out.json"⟩ =
    MainResult.run "collection" "collection" false := by decide

/-! ## Checkpoint JSON files

`_save_step_output` dumps a Python dict as JSON; the dict shapes are the
documented checkpoint schemas (`collected_games.json`,
`engineered_features.json`, `predictions.json`) of the step-based plan.
JSON values are modelled by an inductive type, objects as ordered
key/value lists exactly as the code writes them.
-/

inductive Json where
  | null
  | bool (b : Bool)
  | num (q : ℚ)
  | str (s : String)
  | arr (elems : List Json)
  | obj (fields : List (String × Json))

/-- Field access on a JSON object (`d["k"]` / `d.get("k")`). -/
def jsonGet : Json → String → Option Json
  | Json.obj fields, k => fields.lookup k
  | _, _ => none

/-- Read a JSON number as a Python `int`; fails on non-integral numbers. -/
def jsonToInt (j : Json) : Option Int :=
  match j with
  | Json.num q => if q.den = 1 then some q.num else none
  | _ => none

/-- Read a JSON number (Python `float`). -/
def jsonToNum (j : Json) : Option ℚ :=
  match j with
  | Json.num q => some q
  | _ => none

/-- Read a JSON string. -/
def jsonToStr (j : Json) : Option String :=
  match j with
  | Json.str s => some s
  | _ => none

/-- A boolean feature as serialized in `engineered_features.json`
(`"inter_conference": 1`). -/
def boolToNum (b : Bool) : ℚ := if b then 1 else 0

/-- Inverse reading of a 0/1-encoded boolean feature. -/
def numToBool (q : ℚ) : Option Bool :=
  if q = 1 then some true else if q = 0 then some false else none

/-- A raw collected game, fields exactly those of the
`collected_games.json` schema (step-based plan, `src/unnamed/part_003`). -/
structure RawEvent where
  game_id : String
  date : String
  home_team_id : Int
  away_team_id : Int
  home_team_abbreviation : String
  away_team_abbreviation : String
  season_id : String
  home_team_score : Int
  away_team_score : Int
  lead_changes : Int
  times_tied : Int
  game_status : String
  attendance : Int
  deriving Repr, DecidableEq

/-- JSON encoding of a `RawEvent`, field order as in the schema. -/
def serializeRawEvent (e : RawEvent) : Json :=
  Json.obj [("game_id", Json.str e.game_id), ("date", Json.str e.date),
    ("home_team_id", Json.num (e.home_team_id : ℚ)),
    ("away_team_id", Json.num (e.away_team_id : ℚ)),
    ("home_team_abbreviation", Json.str e.home_team_abbreviation),
    ("away_team_abbreviation", Json.str e.away_team_abbreviation),
    ("season_id", Json.str e.season_id),
    ("home_team_score", Json.num (e.home_team_score : ℚ)),
    ("away_team_score", Json.num (e.away_team_score : ℚ)),
    ("lead_changes", Json.num (e.lead_changes : ℚ)),
    ("times_tied", Json.num (e.times_tied : ℚ)),
    ("game_status", Json.str e.game_status),
    ("attendance", Json.num (e.attendance : ℚ))]

/-- JSON decoding of a `RawEvent`, by field lookup. -/
def deserializeRawEvent (j : Json) : Option RawEvent := do
  let game_id ← (jsonGet j "game_id").bind jsonToStr
  let date ← (jsonGet j "date").bind jsonToStr
  let home_team_id ← (jsonGet j "home_team_id").bind jsonToInt
  let away_team_id ← (jsonGet j "away_team_id").bind jsonToInt
  let home_team_abbreviation ← (jsonGet j "home_team_abbreviation").bind jsonToStr
  let away_team_abbreviation ← (jsonGet j "away_team_abbreviation").bind jsonToStr
  let season_id ← (jsonGet j "season_id").bind jsonToStr
  let home_team_score ← (jsonGet j "home_team_score").bind jsonToInt
  let away_team_score ← (jsonGet j "away_team_score").bind jsonToInt
  let lead_changes ← (jsonGet j "lead_changes").bind jsonToInt
  let times_tied ← (jsonGet j "times_tied").bind jsonToInt
  let game_status ← (jsonGet j "game_status").bind jsonToStr
  let attendance ← (jsonGet j "attendance").bind jsonToInt
  pure ⟨game_id, date, home_team_id, away_team_id, home_team_abbreviation,
    away_team_abbreviation, season_id, home_team_score, away_team_score,
    lead_changes, times_tied, game_status, attendance⟩

/-- The fixed feature schema, fields exactly those of the
`engineered_features.json` schema (step-based plan). -/
structure FeatureVector where
  diff_ranks : Int
  inter_conference : Bool
  scores_diff : Int
  position_score : ℚ
  competitive_seconds : ℚ
  lead_changes : Int
  rivalry_score : ℚ
  deriving Repr, DecidableEq

/-- JSON encoding of a `FeatureVector`, field order as in the schema;
the boolean flag is serialized as `0`/`1` as the schema shows. -/
def serializeFeatureVector (f : FeatureVector) : Json :=
  Json.obj [("diff_ranks", Json.num (f.diff_ranks : ℚ)),
    ("inter_conference", Json.num (boolToNum f.inter_conference)),
    ("scores_diff", Json.num (f.scores_diff : ℚ)),
    ("position_score", Json.num f.position_score),
    ("competitive_seconds", Json.num f.competitive_seconds),
    ("lead_changes", Json.num (f.lead_changes : ℚ)),
    ("rivalry_score", Json.num f.rivalry_score)]

/-- JSON decoding of a `FeatureVector`, by field lookup. -/
def deserializeFeatureVector (j : Json) : Option FeatureVector := do
  let diff_ranks ← (jsonGet j "diff_ranks").bind jsonToInt
  let inter_conference ← ((jsonGet j "inter_conference").bind jsonToNum).bind numToBool
  let scores_diff ← (jsonGet j "scores_diff").bind jsonToInt
  let position_score ← (jsonGet j "position_score").bind jsonToNum
  let competitive_seconds ← (jsonGet j "competitive_seconds").bind jsonToNum
  let lead_changes ← (jsonGet j "lead_changes").bind jsonToInt
  let rivalry_score ← (jsonGet j "rivalry_score").bind jsonToNum
  pure ⟨diff_ranks, inter_conference, scores_diff, position_score,
    competitive_seconds, lead_changes, rivalry_score⟩

/-- One entry of the `games` payload of `engineered_features.json`: the
feature vector plus a back-reference to the raw event it came from. -/
structure FeatureRecord where
  game_id : String
  raw_data : RawEvent
  features : FeatureVector
  deriving Repr, DecidableEq

/-- JSON encoding of a `FeatureRecord`, shape as in the schema. -/
def serializeFeatureRecord (r : FeatureRecord) : Json :=
  Json.obj [("game_id", Json.str r.game_id),
    ("raw_data", serializeRawEvent r.raw_data),
    ("features", serializeFeatureVector r.features)]

/-- JSON decoding of a `FeatureRecord`, by field lookup. -/
def deserializeFeatureRecord (j : Json) : Option FeatureRecord := do
  let game_id ← (jsonGet j "game_id").bind jsonToStr
  let raw_data ← (jsonGet j "raw_data").bind deserializeRawEvent
  let features ← (jsonGet j "features").bind deserializeFeatureVector
  pure ⟨game_id, raw_data, features⟩

/-! ### `NBAScheduler._save_step_output`

```python
output = {
    "metadata": {
        "step": step,
        "timestamp": datetime.now(timezone.utc).isoformat(),
        "total_games": len(data.get('games', data.get('predictions', [])))
    }
}
if step == 'collection':
    output["games"] = data
elif step == 'features':
    output["games"] = data
elif step == 'prediction':
    output["predictions"] = data
with open(output_path, 'w') as f:
    json.dump(output, f, indent=2)
```

The per-step payload (`_step_collection` etc.) is not implemented in the
repository; the payload handed to `_save_step_output` is modelled as the
list of serialized items, following the documented checkpoint schemas.
-/

/-- The checkpoint written by `_save_step_output`: a `metadata` object
with keys `step`, `timestamp`, `total_games` (the dict literal in the
code), then the payload under `games` (collection and features steps) or
`predictions` (prediction step). -/
def save_step_output (step timestamp : String) (items : List Json) : Json :=
  Json.obj [("metadata", Json.obj [("step", Json.str step),
      ("timestamp", Json.str timestamp),
      ("total_games", Json.num (items.length : ℚ))]),
    (if step = "prediction" then "predictions" else "games", Json.arr items)]

/-- Checkpoint written after the features step for a list of
`FeatureRecord`s. -/
def serialize_features_checkpoint (timestamp : String)
    (records : List FeatureRecord) : Json :=
  save_step_output "features" timestamp (records.map serializeFeatureRecord)

/-- `load_json` plus payload decoding for a features checkpoint, as a
later `--from-step` process consumes it. -/
def deserialize_features_checkpoint (j : Json) : Option (List FeatureRecord) :=
  match jsonGet j "games" with
  | some (Json.arr xs) => xs.mapM deserializeFeatureRecord
  | _ => none

/-! ## Event Collector (spec §4.2)

`data_collector.py` is not part of the repository snapshot; the collector
is modelled from the spec.
-/

/-- Modelled from the spec: a raw upstream event as fetched for a date;
`data_collector.py` is missing from the snapshot. Each required field may
be absent (`none`), and the status must be terminal `"Final"` for the
event to be eligible. -/
structure UpstreamEvent where
  game_id : Option String
  date : Option String
  home_team_id : Option Int
  away_team_id : Option Int
  home_team_abbreviation : Option String
  away_team_abbreviation : Option String
  season_id : Option String
  home_team_score : Option Int
  away_team_score : Option Int
  lead_changes : Option Int
  times_tied : Option Int
  game_status : Option String
  attendance : Option Int
  deriving Repr, DecidableEq

/-- Modelled from the spec: field-completeness validation; an event
missing a required raw field is excluded, not fatal. -/
def validateEvent (e : UpstreamEvent) : Option RawEvent := do
  let game_id ← e.game_id
  let date ← e.date
  let home_team_id ← e.home_team_id
  let away_team_id ← e.away_team_id
  let home_team_abbreviation ← e.home_team_abbreviation
  let away_team_abbreviation ← e.away_team_abbreviation
  let season_id ← e.season_id
  let home_team_score ← e.home_team_score
  let away_team_score ← e.away_team_score
  let lead_changes ← e.lead_changes
  let times_tied ← e.times_tied
  let game_status ← e.game_status
  let attendance ← e.attendance
  pure ⟨game_id, date, home_team_id, away_team_id, home_team_abbreviation,
    away_team_abbreviation, season_id, home_team_score, away_team_score,
    lead_changes, times_tied, game_status, attendance⟩

/-- Modelled from the spec: `collect(date)` over the upstream events
returned for the date — keep terminal/"Final" events, validate each,
exclude invalid ones; no eligible event is a valid empty outcome, not an
error. -/
def collect (upstream : List UpstreamEvent) : List RawEvent :=
  (upstream.filter (fun e => e.game_status = some "Final")).filterMap validateEvent

/-! ## Storage Adapter (spec §4.7)

`database_manager.py` (`save_prediction`, `check_existing_prediction`,
`update_prediction`) is declared in the development plan but its source is
not part of the repository snapshot; the adapter is modelled from the spec.
-/

/-- Outcome of a Storage `save`. -/
inductive SaveOutcome
  | inserted
  | updated
  | skipped
  deriving Repr, DecidableEq

/-- A stored prediction row, keyed by event id (columns of the planned
`game_predictions` table that `save` touches). -/
structure StoredPrediction where
  game_id : String
  classification : String
  rating : ℚ
  probability_good : ℚ
  probability_bad : ℚ
  confidence : String
  predicted_at : String
  model_version : String
  deriving Repr, DecidableEq

/-- Modelled from the spec: `save(predictionResult, overwrite)` — look up
by event id; insert when absent; skip without mutating storage when
present and `overwrite` is false; update in place when present and
`overwrite` is true. -/
def save (store : List StoredPrediction) (p : StoredPrediction)
    (overwrite : Bool) : List StoredPrediction × SaveOutcome :=
  match store.find? (fun q => q.game_id == p.game_id) with
  | none => (store ++ [p], SaveOutcome.inserted)
  | some _ =>
      if overwrite then
        (store.map (fun q => if q.game_id == p.game_id then p else q),
          SaveOutcome.updated)
      else
        (store, SaveOutcome.skipped)

/-! ## Rivalry Score Calculator (spec §4.3)

The rivalry computation lives in the model notebooks, which are not part
of the repository snapshot; it is modelled from the spec.
-/

/-- Modelled from the spec: one historical meeting of a team pair.
`date` is a time coordinate in years, `margin` the final score margin. -/
structure Meeting where
  date : ℚ
  is_playoff : Bool
  margin : ℕ
  deriving Repr, DecidableEq

/-- Membership in the trailing 5-year window ending at `asOf`. -/
def inWindow (asOf : ℚ) (m : Meeting) : Bool :=
  decide (asOf - 5 ≤ m.date ∧ m.date ≤ asOf)

/-- Playoff meetings of the pair inside the window. -/
def playoffMeetings (history : List Meeting) (asOf : ℚ) : ℕ :=
  history.countP (fun m => inWindow asOf m && m.is_playoff)

/-- Regular meetings inside the window decided by a narrow margin
(at most `marginThreshold` points). -/
def narrowMeetings (marginThreshold : ℕ) (history : List Meeting) (asOf : ℚ) : ℕ :=
  history.countP
    (fun m => inWindow asOf m && !m.is_playoff && decide (m.margin ≤ marginThreshold))

/-- Modelled from the spec: `score(teamA, teamB, asOfDate)` — weighted
count of qualifying meetings (playoff weight `wp` heavier than narrow
weight `wn`), normalized by the saturating function
`1 - exp (-weighted / k)`. -/
noncomputable def rivalryScore (wp wn k : ℝ) (marginThreshold : ℕ)
    (history : List Meeting) (asOf : ℚ) : ℝ :=
  1 - Real.exp (-((wp * playoffMeetings history asOf +
      wn * narrowMeetings marginThreshold history asOf) / k))

/-! ## Competitive-Duration Calculator (spec §4.4)

The play-by-play computation lives in the scheduled job's feature
engineering, which is not part of the repository snapshot; it is modelled
from the spec.
-/

/-- Fraction of a sampling interval during which the linearly
interpolated score differential stays within ±5 points, for endpoint
differentials `d1` and `d2`. -/
def fracWithin (d1 d2 : ℚ) : ℚ :=
  if d1 = d2 then (if |d1| ≤ 5 then 1 else 0)
  else
    max 0 (min 1 (max ((-5 - d1) / (d2 - d1)) ((5 - d1) / (d2 - d1))) -
      max 0 (min ((-5 - d1) / (d2 - d1)) ((5 - d1) / (d2 - d1))))

/-- Modelled from the spec: total elapsed time with `|differential| ≤ 5`
over consecutive (timestamp-offset, differential) samples, linearly
interpolating boundary crossings. -/
def competitiveSeconds : List (ℚ × ℚ) → ℚ
  | (t1, d1) :: (t2, d2) :: rest =>
      (t2 - t1) * fracWithin d1 d2 + competitiveSeconds ((t2, d2) :: rest)
  | _ => 0

/-- Timestamp of the last sample (`s` is the head, `rest` the tail). -/
def lastTime : ℚ × ℚ → List (ℚ × ℚ) → ℚ
  | s, [] => s.1
  | _, s' :: rest => lastTime s' rest

/-- The event duration covered by the samples: last offset minus first. -/
def eventSpan : List (ℚ × ℚ) → ℚ
  | [] => 0
  | s :: rest => lastTime s rest - s.1

/-- Modelled from the spec: `duration(eventId)` — `None` is propagated
(never defaulted to 0) when the time-series source has no data for the
event; otherwise the competitive seconds of the samples. -/
def duration (source : String → Option (List (ℚ × ℚ))) (eventId : String) : Option ℚ :=
  (source eventId).map competitiveSeconds

/-! ## `gameService.ts` / `initDatabase.ts` / test fixtures (REST API) -/

/-- The row shape selected by `GameService.getGames` /
`getGameById` (joined `games` + `teams` columns). -/
structure GameRow where
  id : String
  date : String
  prediction_rating : ℚ
  prediction_classification : String
  probability_good : ℚ
  probability_bad : ℚ
  confidence : String
  home_team_id : String
  home_team_abbreviation : String
  home_team_name : String
  home_team_city : String
  home_team_conference : String
  away_team_id : String
  away_team_abbreviation : String
  away_team_name : String
  away_team_city : String
  away_team_conference : String
  deriving Repr, DecidableEq

structure TeamInfo where
  id : String
  abbreviation : String
  name : String
  city : String
  conference : String
  deriving Repr, DecidableEq

structure Probability where
  good : ℚ
  bad : ℚ
  deriving Repr, DecidableEq

structure Prediction where
  rating : ℚ
  classification : String
  probability : Probability
  confidence : String
  deriving Repr, DecidableEq

structure Game where
  id : String
  date : String
  home_team : TeamInfo
  away_team : TeamInfo
  prediction : Prediction
  deriving Repr, DecidableEq

/-- `GameService.mapRowToGame`: a pure field-for-field repackaging of the
joined row into the API `Game` shape. -/
def mapRowToGame (r : GameRow) : Game :=
  { id := r.id
    date := r.date
    home_team :=
      { id := r.home_team_id
        abbreviation := r.home_team_abbreviation
        name := r.home_team_name
        city := r.home_team_city
        conference := r.home_team_conference }
    away_team :=
      { id := r.away_team_id
        abbreviation := r.away_team_abbreviation
        name := r.away_team_name
        city := r.away_team_city
        conference := r.away_team_conference }
    prediction :=
      { rating := r.prediction_rating
        classification := r.prediction_classification
        probability :=
          { good := r.probability_good
            bad := r.probability_bad }
        confidence := r.confidence } }

/-- A sample game row as inserted by `addSampleData` in
`initDatabase.ts` (the date is computed at runtime and irrelevant
here). -/
structure SeedGame where
  id : String
  home_team_id : String
  away_team_id : String
  prediction_rating : ℚ
  prediction_classification : String
  probability_good : ℚ
  probability_bad : ℚ
  confidence : String
  deriving Repr, DecidableEq

/-- The six sample games of `addSampleData` (`initDatabase.ts`). -/
def sampleGames : List SeedGame :=
  [⟨"0022400741", "1610612747", "1610612738", 78.5, "good", 0.82, 0.18, "high"⟩,
   ⟨"0022400742", "1610612744", "1610612748", 65.2, "good", 0.68, 0.32, "medium"⟩,
   ⟨"0022400743", "1610612751", "1610612749", 42.8, "bad", 0.35, 0.65, "medium"⟩,
   ⟨"0022400744", "1610612756", "1610612759", 89.1, "good", 0.91, 0.09, "high"⟩,
   ⟨"0022400745", "1610612747", "1610612744", 72.3, "good", 0.75, 0.25, "high"⟩,
   ⟨"0022400746", "1610612738", "1610612748", 58.7, "good", 0.61, 0.39, "medium"⟩]

/-- The two mock predictions of `__tests__/utils/testHelpers.ts`. -/
def mockGamePredictions : List Prediction :=
  [⟨65.5, "good", ⟨0.73, 0.27⟩, "high"⟩,
   ⟨45.2, "bad", ⟨0.35, 0.65⟩, "medium"⟩]

/-- Modelled from the spec: the predictor (missing `predictor.py`)
derives a two-label distribution for a prediction — with good-probability
`p` the bad label carries the complement `1 - p`. -/
def predictionProbability (p : ℚ) : Probability :=
  ⟨p, 1 - p⟩

/-- A concrete stored prediction, values from the `predictions.json`
example of the step-based plan. -/
def samplePrediction : StoredPrediction :=
  ⟨"0022400123", "good", 87.5, 0.73, 0.27, "high", "2024-01-15T11:00:00Z", "1.0"⟩

/-- A concrete joined row: the first test fixture of `testHelpers.ts`
(LAL home, BOS away). -/
def sampleRow : GameRow :=
  ⟨"0022400741", "2025-02-08", 65.5, "good", 0.73, 0.27, "high",
   "1610612747", "LAL", "Los Angeles Lakers", "Los Angeles", "West",
   "1610612738", "BOS", "Boston Celtics", "Boston", "East"⟩

/-- A concrete play-by-play source: one known event with three
(timestamp-offset, score-differential) samples. -/
def sampleSource (eventId : String) : Option (List (ℚ × ℚ)) :=
  if eventId = "0022400123" then some [(0, 0), (600, 2), (1200, 12)] else none

/-- An upstream event that is still in progress (status not "Final"). -/
def nonFinalUpstreamEvent : UpstreamEvent :=
  ⟨some "0022400123", some "2024-01-15", some 1610612747, some 1610612738,
   some "LAL", some "BOS", some "22024", some 87, some 80, some 5, some 3,
   some "In Progress", some 18997⟩

/-! ## Helper lemmas -/

theorem validateThreshold_nonneg (t : Option ℚ) : 0 ≤ validateThreshold t := by
  cases t with
  | none => norm_num [validateThreshold]
  | some q =>
      by_cases h : q < 0 ∨ 100 < q
      · simp [validateThreshold, h]
      · push_neg at h
        simp [validateThreshold, not_or.mpr ⟨not_lt.mpr h.1, not_lt.mpr h.2⟩]
        exact h.1

theorem validateThreshold_le (t : Option ℚ) : validateThreshold t ≤ 100 := by
  cases t with
  | none => norm_num [validateThreshold]
  | some q =>
      by_cases h : q < 0 ∨ 100 < q
      · norm_num [validateThreshold, h]
      · push_neg at h
        simp [validateThreshold, not_or.mpr ⟨not_lt.mpr h.1, not_lt.mpr h.2⟩]
        exact h.2

/-! ## Claim theorems -/

/-- C2: for every configured threshold and every rating, `classifyGame`
classifies "good" exactly when the rating is at least the threshold and
"bad" otherwise; with threshold 60, a rating of 65.5 yields "good". -/
theorem classifyGame_threshold_spec :
    (∀ (cfg : PredictionConfig) (rating : ℚ),
      (classifyGame cfg rating = "good" ↔ cfg.goodGameThreshold ≤ rating) ∧
      (classifyGame cfg rating = "bad" ↔ rating < cfg.goodGameThreshold)) ∧
    classifyGame ⟨60⟩ (131 / 2) = "good" := by
  constructor
  · intro cfg rating
    constructor
    · constructor
      · intro hg
        by_contra hle
        simp [classifyGame, hle] at hg
      · intro hle
        simp [classifyGame, hle]
    · constructor
      · intro hb
        by_contra hlt
        push_neg at hlt
        simp [classifyGame, hlt] at hb
      · intro hlt
        simp [classifyGame, not_le.mpr hlt]
  · norm_num [classifyGame]

/-- C10: for every value of the `GOOD_GAME_THRESHOLD` environment
variable, the effective threshold is in [0, 100]; an unset variable
yields 60, and a `NaN`, negative or above-100 parse is replaced by 60. -/
theorem goodGameThreshold_validated (env : Option String) :
    (0 ≤ (predictionConfig env).goodGameThreshold ∧
      (predictionConfig env).goodGameThreshold ≤ 100) ∧
    (predictionConfig none).goodGameThreshold = 60 ∧
    (∀ s, parseIntDec (envOrSixty (some s)) = none →
      (predictionConfig (some s)).goodGameThreshold = 60) ∧
    (∀ s n, parseIntDec (envOrSixty (some s)) = some n → (n < 0 ∨ 100 < n) →
      (predictionConfig (some s)).goodGameThreshold = 60) := by
  refine ⟨⟨validateThreshold_nonneg _, validateThreshold_le _⟩, ?_, ?_, ?_⟩
  · have h : parseIntDec (envOrSixty none) = some 60 := by decide
    norm_num [predictionConfig, h, validateThreshold]
  · intro s hs
    simp [predictionConfig, hs, validateThreshold]
  · intro s n hs hn
    have hcast : ((n : ℚ) < 0 ∨ 100 < (n : ℚ)) := by
      rcases hn with h | h
      · exact Or.inl (by exact_mod_cast h)
      · exact Or.inr (by exact_mod_cast h)
    have hthr : (predictionConfig (some s)).goodGameThreshold =
        validateThreshold (some ((n : ℤ) : ℚ)) := by
      simp [predictionConfig, hs]
    rw [hthr]
    show (if ((n : ℤ) : ℚ) < 0 ∨ 100 < ((n : ℤ) : ℚ) then (60 : ℚ) else ((n : ℤ) : ℚ)) = 60
    rw [if_pos hcast]

/-- Witness for C10 at concrete inputs: an above-range, an unset, a
non-numeric and a negative `GOOD_GAME_THRESHOLD`. -/
theorem goodGameThreshold_validated_witness :
    (0 ≤ (predictionConfig (some "150")).goodGameThreshold ∧
      (predictionConfig (some "150")).goodGameThreshold ≤ 100) ∧
    (predictionConfig none).goodGameThreshold = 60 ∧
    (predictionConfig (some "abc")).goodGameThreshold = 60 ∧
    (predictionConfig (some "-7")).goodGameThreshold = 60 :=
  ⟨(goodGameThreshold_validated (some "150")).1,
   (goodGameThreshold_validated none).2.1,
   (goodGameThreshold_validated (some "abc")).2.2.1 "abc" (by decide),
   (goodGameThreshold_validated (some "-7")).2.2.2 "-7" (-7) (by decide)
     (Or.inl (by norm_num))⟩

/-- C1: for steps drawn from the ordered sequence, `run_pipeline` with
`index(startStep) > index(endStep)` raises the configuration error before
executing any step (the error branch precedes the step loop, so no step
runs and no step I/O happens); with `index(startStep) <= index(endStep)`
no such error is raised and the step slice runs. -/
theorem run_pipeline_step_order (s e : String) (hs : s ∈ steps) (he : e ∈ steps) :
    (steps.indexOf e < steps.indexOf s →
      run_pipeline s e =
        Except.error ("Invalid step sequence: " ++ s ++ " -> " ++ e)) ∧
    (steps.indexOf s ≤ steps.indexOf e →
      ∃ executed, run_pipeline s e = Except.ok executed) := by
  simp only [steps] at hs he
  fin_cases hs <;> fin_cases he <;>
    refine ⟨fun h => ?_, fun h => ?_⟩ <;>
    first
      | rfl
      | exact ⟨_, rfl⟩
      | exact absurd h (by decide)

/-- Witness for C1: the spec's concrete instance
`run(startStep="prediction", endStep="collection")` errors, and the
default full pipeline does not. -/
theorem run_pipeline_step_order_witness :
    run_pipeline "prediction" "collection" =
      Except.error "Invalid step sequence: prediction -> collection" ∧
    ∃ executed, run_pipeline "collection" "storage" = Except.ok executed :=
  ⟨(run_pipeline_step_order "prediction" "collection" (by decide) (by decide)).1
      (by decide),
   (run_pipeline_step_order "collection" "storage" (by decide) (by decide)).2
      (by decide)⟩

/-- C8: `--from-step` without `--input`, or `--until-step` without
`--output`, is a usage error (`parser.error`, non-zero exit) raised
before `load_json` or `run_pipeline` run; invocations carrying the
companion flag are not rejected by this check. -/
theorem cli_companion_flags (a : Args) :
    ((∃ s, a.from_step = some s ∧ s ≠ "") → a.input = none →
      ∃ msg, main_dispatch a = MainResult.usage_error msg) ∧
    ((∃ s, a.until_step = some s ∧ s ≠ "") → a.output = none →
      ∃ msg, main_dispatch a = MainResult.usage_error msg) ∧
    ((a.from_step ≠ none → ∃ s, a.input = some s ∧ s ≠ "") →
      (a.until_step ≠ none → ∃ s, a.output = some s ∧ s ≠ "") →
      ∀ msg, main_dispatch a ≠ MainResult.usage_error msg) := by
  refine ⟨?_, ?_, ?_⟩
  · rintro ⟨s, hs, hs'⟩ hin
    refine ⟨"--input is required when using --from-step", ?_⟩
    simp [main_dispatch, validate_args, pyTruthy, hs, hs', hin]
  · rintro ⟨s, hs, hs'⟩ hout
    have hu : pyTruthy a.until_step = true := by simp [pyTruthy, hs, hs']
    have ho : pyTruthy a.output = false := by simp [pyTruthy, hout]
    cases hf : pyTruthy a.from_step with
    | false =>
        exact ⟨"--output is required when using --until-step",
          by simp [main_dispatch, validate_args, hf, hu, ho]⟩
    | true =>
        cases hi : pyTruthy a.input with
        | false =>
            exact ⟨"--input is required when using --from-step",
              by simp [main_dispatch, validate_args, hf, hi]⟩
        | true =>
            exact ⟨"--output is required when using --until-step",
              by simp [main_dispatch, validate_args, hf, hi, hu, ho]⟩
  · intro hin hout msg
    have h1 : ¬(pyTruthy a.from_step = true ∧ ¬ pyTruthy a.input = true) := by
      rintro ⟨hf, hni⟩
      cases hfs : a.from_step with
      | none => simp [hfs, pyTruthy] at hf
      | some s =>
          obtain ⟨t, ht, ht'⟩ := hin (by simp [hfs])
          exact hni (by simp [pyTruthy, ht, ht'])
    have h2 : ¬(pyTruthy a.until_step = true ∧ ¬ pyTruthy a.output = true) := by
      rintro ⟨hf, hno⟩
      cases hus : a.until_step with
      | none => simp [hus, pyTruthy] at hf
      | some s =>
          obtain ⟨t, ht, ht'⟩ := hout (by simp [hus])
          exact hno (by simp [pyTruthy, ht, ht'])
    unfold main_dispatch validate_args
    rw [if_neg h1, if_neg h2]
    simp

/-- Witness for C8: `--from-step features` without `--input` and
`--until-step collection` without `--output` are rejected; `--from-step
features --input in.json` passes this check. -/
theorem cli_companion_flags_witness :
    (∃ msg, main_dispatch ⟨some "features", none, none, none⟩ =
      MainResult.usage_error msg) ∧
    (∃ msg, main_dispatch ⟨none, some "collection", none, none⟩ =
      MainResult.usage_error msg) ∧
    (∀ msg, main_dispatch ⟨some "features", none, some "in.json", none⟩ ≠
      MainResult.usage_error msg) :=
  ⟨(cli_companion_flags ⟨some "features", none, none, none⟩).1
      ⟨"features", rfl, by decide⟩ rfl,
   (cli_companion_flags ⟨none, some "collection", none, none⟩).2.1
      ⟨"collection", rfl, by decide⟩ rfl,
   (cli_companion_flags ⟨some "features", none, some "in.json", none⟩).2.2
      (fun _ => ⟨"in.json", rfl, by decide⟩)
      (fun h => absurd rfl h)⟩

/-- C3: saving the same prediction twice with `overwrite = false` into a
store that did not yet hold its event id leaves exactly one record for
that id, the second call leaves storage unchanged, and the second call
reports the "skipped — already present" outcome. -/
theorem save_twice_idempotent (store : List StoredPrediction) (p : StoredPrediction)
    (h : ∀ q ∈ store, q.game_id ≠ p.game_id) :
    ((save (save store p false).1 p false).1.countP
        (fun q => q.game_id == p.game_id) = 1) ∧
    (save (save store p false).1 p false).1 = (save store p false).1 ∧
    (save (save store p false).1 p false).2 = SaveOutcome.skipped := by
  have hfind : store.find? (fun q => q.game_id == p.game_id) = none := by
    rw [List.find?_eq_none]
    intro q hq
    simpa using h q hq
  have h1 : save store p false = (store ++ [p], SaveOutcome.inserted) := by
    simp [save, hfind]
  have hfind2 : (store ++ [p]).find? (fun q => q.game_id == p.game_id) = some p := by
    rw [List.find?_append, hfind]
    simp [List.find?]
  have h2 : save (store ++ [p]) p false = (store ++ [p], SaveOutcome.skipped) := by
    simp [save, hfind2]
  have hcount : store.countP (fun q => q.game_id == p.game_id) = 0 := by
    rw [List.countP_eq_zero]
    intro q hq
    simpa using h q hq
  refine ⟨?_, by rw [h1, h2], by rw [h1, h2]⟩
  rw [h1, h2]
  simp [List.countP_append, hcount, List.countP_cons]

/-- Witness for C3: a double save of a concrete prediction into the
empty store. -/
theorem save_twice_idempotent_witness :
    ((save (save [] samplePrediction false).1 samplePrediction false).1.countP
        (fun q => q.game_id == samplePrediction.game_id) = 1) ∧
    (save (save [] samplePrediction false).1 samplePrediction false).1 =
      (save [] samplePrediction false).1 ∧
    (save (save [] samplePrediction false).1 samplePrediction false).2 =
      SaveOutcome.skipped :=
  save_twice_idempotent [] samplePrediction (by simp)

/-- C9: every prediction probability distribution in the repository sums
to 1: the spec-modelled producer emits a complementary pair, every sample
row of `initDatabase.ts` and every test fixture sums to 1, and the API
mapping `mapRowToGame` carries the stored pair over unchanged. -/
theorem probability_distribution_sums_to_one (row : GameRow) (p : ℚ) :
    ((predictionProbability p).good + (predictionProbability p).bad = 1) ∧
    (∀ g ∈ sampleGames, g.probability_good + g.probability_bad = 1) ∧
    (∀ g ∈ mockGamePredictions, g.probability.good + g.probability.bad = 1) ∧
    ((mapRowToGame row).prediction.probability.good +
        (mapRowToGame row).prediction.probability.bad =
      row.probability_good + row.probability_bad) := by
  refine ⟨by simp [predictionProbability], ?_, ?_, rfl⟩
  · intro g hg
    fin_cases hg <;> norm_num
  · intro g hg
    fin_cases hg <;> norm_num

/-- Witness for C9 at concrete inputs: the first sample row and the first
test fixture. -/
theorem probability_distribution_sums_to_one_witness :
    ((predictionProbability (82 / 100)).good +
        (predictionProbability (82 / 100)).bad = 1) ∧
    ((⟨"0022400741", "1610612747", "1610612738", 78.5, "good", 0.82, 0.18,
        "high"⟩ : SeedGame).probability_good +
      (⟨"0022400741", "1610612747", "1610612738", 78.5, "good", 0.82, 0.18,
        "high"⟩ : SeedGame).probability_bad = 1) ∧
    ((⟨65.5, "good", ⟨0.73, 0.27⟩, "high"⟩ : Prediction).probability.good +
      (⟨65.5, "good", ⟨0.73, 0.27⟩, "high"⟩ : Prediction).probability.bad = 1) :=
  ⟨(probability_distribution_sums_to_one sampleRow (82 / 100)).1,
   (probability_distribution_sums_to_one sampleRow (82 / 100)).2.1 _
      (List.mem_cons_self _ _),
   (probability_distribution_sums_to_one sampleRow (82 / 100)).2.2.1 _
      (List.mem_cons_self _ _)⟩

theorem jsonToInt_intCast (n : ℤ) : jsonToInt (Json.num ((n : ℤ) : ℚ)) = some n := by
  simp [jsonToInt]

set_option maxHeartbeats 1000000 in
theorem deserializeRawEvent_serializeRawEvent (e : RawEvent) :
    deserializeRawEvent (serializeRawEvent e) = some e := by
  cases e
  simp [serializeRawEvent, deserializeRawEvent, jsonGet, List.lookup,
    jsonToStr, jsonToInt_intCast]

theorem deserializeFeatureVector_serializeFeatureVector (f : FeatureVector) :
    deserializeFeatureVector (serializeFeatureVector f) = some f := by
  cases f with
  | mk dr ic sd ps cs lc rs =>
      cases ic <;>
        simp [serializeFeatureVector, deserializeFeatureVector, jsonGet,
          List.lookup, jsonToInt_intCast, jsonToNum, boolToNum, numToBool]

theorem deserializeFeatureRecord_serializeFeatureRecord (r : FeatureRecord) :
    deserializeFeatureRecord (serializeFeatureRecord r) = some r := by
  cases r
  simp [serializeFeatureRecord, deserializeFeatureRecord, jsonGet, List.lookup,
    jsonToStr, deserializeRawEvent_serializeRawEvent,
    deserializeFeatureVector_serializeFeatureVector]

/-- C7: serializing a list of feature records to a checkpoint and
deserializing the checkpoint reproduces the list field-for-field
(deserialization is a left inverse of serialization). -/
theorem features_checkpoint_roundtrip (timestamp : String)
    (records : List FeatureRecord) :
    deserialize_features_checkpoint
      (serialize_features_checkpoint timestamp records) = some records := by
  have hget : jsonGet (serialize_features_checkpoint timestamp records) "games" =
      some (Json.arr (records.map serializeFeatureRecord)) := by
    simp [serialize_features_checkpoint, save_step_output, jsonGet, List.lookup]
  rw [deserialize_features_checkpoint, hget]
  clear hget
  show (records.map serializeFeatureRecord).mapM deserializeFeatureRecord =
    some records
  induction records with
  | nil => rfl
  | cons r rs ih =>
      simp only [List.map_cons, List.mapM_cons,
        deserializeFeatureRecord_serializeFeatureRecord, Option.bind_eq_bind,
        Option.some_bind, ih, Option.pure_def]

/-! ### C6: empty collection and its checkpoint

`_save_step_output` writes the metadata dict literal
`{"step": ..., "timestamp": ..., "total_games": ...}`: the item count key
is `total_games` (as in the documented checkpoint schemas), not
`total_items`.
-/

/-- Counterexample for C6 as stated: the checkpoint written for an empty
collection carries no `total_items` metadata key at all (the count key the
code writes is `total_games`). -/
theorem empty_checkpoint_no_total_items :
    ((jsonGet (save_step_output "collection" "2024-01-15T10:30:00Z" [])
        "metadata").bind (fun m => jsonGet m "total_items") = none) ∧
    ((jsonGet (save_step_output "collection" "2024-01-15T10:30:00Z" [])
        "metadata").bind (fun m => jsonGet m "total_games") =
      some (Json.num 0)) := by
  constructor <;> rfl

/-- C6 (amended): for a date with zero eligible (terminal/"Final")
events, `collect` returns the empty list rather than an error, and the
checkpoint written for the collection step has metadata item count
`total_games: 0` and an empty `games` array. -/
theorem empty_collection_checkpoint (upstream : List UpstreamEvent)
    (timestamp : String)
    (h : ∀ e ∈ upstream, e.game_status ≠ some "Final") :
    collect upstream = [] ∧
    ((jsonGet (save_step_output "collection" timestamp
        ((collect upstream).map serializeRawEvent)) "metadata").bind
      (fun m => jsonGet m "total_games") = some (Json.num 0)) ∧
    (jsonGet (save_step_output "collection" timestamp
        ((collect upstream).map serializeRawEvent)) "games" =
      some (Json.arr [])) := by
  have hc : collect upstream = [] := by
    unfold collect
    have : upstream.filter (fun e => e.game_status = some "Final") = [] := by
      rw [List.filter_eq_nil_iff]
      intro e he
      simpa using h e he
    rw [this]
    rfl
  refine ⟨hc, ?_, ?_⟩ <;>
    simp [hc, save_step_output, jsonGet, List.lookup]

/-- Witness for the amended C6: a date whose only upstream event is not
terminal. -/
theorem empty_collection_checkpoint_witness :
    collect [nonFinalUpstreamEvent] = [] ∧
    ((jsonGet (save_step_output "collection" "2024-01-15T10:30:00Z"
        ((collect [nonFinalUpstreamEvent]).map serializeRawEvent)) "metadata").bind
      (fun m => jsonGet m "total_games") = some (Json.num 0)) ∧
    (jsonGet (save_step_output "collection" "2024-01-15T10:30:00Z"
        ((collect [nonFinalUpstreamEvent]).map serializeRawEvent)) "games" =
      some (Json.arr [])) :=
  empty_collection_checkpoint [nonFinalUpstreamEvent] "2024-01-15T10:30:00Z"
    (by decide)

/-- C4: the rivalry score is always in [0, 1], and is exactly 0 when the
trailing 5-year window holds no qualifying meetings (no playoff meetings
and no narrow-margin regular meetings); hypotheses fix the weights as the
spec has them, with playoff meetings weighted at least as heavily as
narrow regular meetings. -/
theorem rivalry_score_bounds (wp wn k : ℝ) (mt : ℕ) (history : List Meeting)
    (asOf : ℚ) (hwp : 0 < wp) (hwn : 0 ≤ wn) (_hwpn : wn ≤ wp) (hk : 0 < k) :
    (0 ≤ rivalryScore wp wn k mt history asOf ∧
      rivalryScore wp wn k mt history asOf ≤ 1) ∧
    (playoffMeetings history asOf = 0 → narrowMeetings mt history asOf = 0 →
      rivalryScore wp wn k mt history asOf = 0) := by
  have hx : 0 ≤ (wp * (playoffMeetings history asOf : ℝ) +
      wn * (narrowMeetings mt history asOf : ℝ)) / k :=
    div_nonneg
      (add_nonneg (mul_nonneg hwp.le (Nat.cast_nonneg _))
        (mul_nonneg hwn (Nat.cast_nonneg _)))
      hk.le
  refine ⟨⟨?_, ?_⟩, ?_⟩
  · have h1 : Real.exp (-((wp * (playoffMeetings history asOf : ℝ) +
        wn * (narrowMeetings mt history asOf : ℝ)) / k)) ≤ Real.exp 0 :=
      Real.exp_le_exp.mpr (neg_nonpos.mpr hx)
    rw [Real.exp_zero] at h1
    unfold rivalryScore
    linarith
  · have h2 := Real.exp_pos (-((wp * (playoffMeetings history asOf : ℝ) +
        wn * (narrowMeetings mt history asOf : ℝ)) / k))
    unfold rivalryScore
    linarith
  · intro hp hn
    simp [rivalryScore, hp, hn]

/-- Witness for C4 at concrete weights (playoff weight 3, narrow weight
1, saturation constant 5, margin threshold 5) and an empty history. -/
theorem rivalry_score_bounds_witness :
    (0 ≤ rivalryScore 3 1 5 5 [] 0 ∧ rivalryScore 3 1 5 5 [] 0 ≤ 1) ∧
    rivalryScore 3 1 5 5 [] 0 = 0 :=
  have h := rivalry_score_bounds 3 1 5 5 [] 0 (by norm_num) (by norm_num)
    (by norm_num) (by norm_num)
  ⟨h.1, h.2 rfl rfl⟩

theorem fracWithin_nonneg (d1 d2 : ℚ) : 0 ≤ fracWithin d1 d2 := by
  unfold fracWithin
  split_ifs <;> norm_num [le_max_left]

theorem fracWithin_le_one (d1 d2 : ℚ) : fracWithin d1 d2 ≤ 1 := by
  unfold fracWithin
  split_ifs with h1 h2
  · norm_num
  · norm_num
  · apply max_le (by norm_num)
    have hmin : min 1 (max ((-5 - d1) / (d2 - d1)) ((5 - d1) / (d2 - d1))) ≤ 1 :=
      min_le_left _ _
    have hmax : (0 : ℚ) ≤
        max 0 (min ((-5 - d1) / (d2 - d1)) ((5 - d1) / (d2 - d1))) :=
      le_max_left _ _
    linarith

theorem competitiveSeconds_bounds (l : List (ℚ × ℚ))
    (h : l.Chain' (fun p q => p.1 ≤ q.1)) :
    0 ≤ competitiveSeconds l ∧ competitiveSeconds l ≤ eventSpan l := by
  induction l with
  | nil => simp [competitiveSeconds, eventSpan]
  | cons s l ih =>
      cases l with
      | nil => simp [competitiveSeconds, eventSpan, lastTime]
      | cons s' rest =>
          obtain ⟨h12, htail⟩ := List.chain'_cons.mp h
          have ihb := ih htail
          obtain ⟨t1, d1⟩ := s
          obtain ⟨t2, d2⟩ := s'
          have h12' : t1 ≤ t2 := h12
          have hf0 := fracWithin_nonneg d1 d2
          have hf1 := fracWithin_le_one d1 d2
          have hcs : competitiveSeconds ((t1, d1) :: (t2, d2) :: rest) =
              (t2 - t1) * fracWithin d1 d2 +
                competitiveSeconds ((t2, d2) :: rest) := rfl
          have hspan : eventSpan ((t1, d1) :: (t2, d2) :: rest) =
              lastTime (t2, d2) rest - t1 := rfl
          have hspan' : eventSpan ((t2, d2) :: rest) =
              lastTime (t2, d2) rest - t2 := rfl
          rw [hspan'] at ihb
          have hmul0 : 0 ≤ (t2 - t1) * fracWithin d1 d2 :=
        mul_nonneg (by linarith) hf0
          have hmul1 : (t2 - t1) * fracWithin d1 d2 ≤ t2 - t1 :=
        mul_le_of_le_one_right (by linarith) hf1
          constructor
          · rw [hcs]
            linarith [ihb.1]
          · rw [hcs, hspan]
            linarith [ihb.2]

/-- C5: when the time-series source has no play-by-play data for an
event, `duration` propagates `None` (and in particular never returns 0);
when data exists (time-ordered samples), the returned duration lies in
[0, event duration]. -/
theorem duration_none_or_bounded (source : String → Option (List (ℚ × ℚ)))
    (eventId : String) :
    (source eventId = none →
      duration source eventId = none ∧ duration source eventId ≠ some 0) ∧
    (∀ samples, source eventId = some samples →
      samples.Chain' (fun p q => p.1 ≤ q.1) →
      duration source eventId = some (competitiveSeconds samples) ∧
      0 ≤ competitiveSeconds samples ∧
      competitiveSeconds samples ≤ eventSpan samples) := by
  constructor
  · intro h
    simp [duration, h]
  · intro samples h hchain
    exact ⟨by simp [duration, h], competitiveSeconds_bounds samples hchain⟩

/-- Witness for C5: an event id the source knows nothing about, and one
with a concrete three-sample play-by-play series. -/
theorem duration_none_or_bounded_witness :
    (duration sampleSource "unknown" = none ∧
      duration sampleSource "unknown" ≠ some 0) ∧
    (duration sampleSource "0022400123" =
        some (competitiveSeconds [((0 : ℚ), (0 : ℚ)), (600, 2), (1200, 12)]) ∧
      0 ≤ competitiveSeconds [((0 : ℚ), (0 : ℚ)), (600, 2), (1200, 12)] ∧
      competitiveSeconds [((0 : ℚ), (0 : ℚ)), (600, 2), (1200, 12)] ≤
        eventSpan [((0 : ℚ), (0 : ℚ)), (600, 2), (1200, 12)]) :=
  ⟨(duration_none_or_bounded sampleSource "unknown").1 rfl,
   (duration_none_or_bounded sampleSource "0022400123").2
      [((0 : ℚ), (0 : ℚ)), (600, 2), (1200, 12)] rfl
      (by norm_num [List.chain'_cons, List.chain'_singleton])⟩

end NBA
